import Mathlib

/-!
A verification development for the invoice query/aggregation/caching core
of the SPM backend (Django REST viewset `InvoiceViewSet` in
`business/views.py`, together with `business/serializers.py` and
`business/models.py`).

The Python code is shallowly embedded: query parameters are association
lists of strings, querysets are lists of joined invoice rows, Django
`DecimalField` amounts are exact rationals, the Redis cache is an
association list from keys to payloads, and fallible operations return
`Except`.  All definitions below are translated from the source files;
where a Python-level subtlety matters (object truthiness, `==` on Django
`F` expressions, `repr` of strings used in cache keys) the doc comment of
the definition records which source construct it models.
-/

/-! ## Python string primitives used by the cache-key derivation -/

/-- The single-quote character (Python's default string-repr quote). -/
def sqChar : Char := Char.ofNat 39

/-- The double-quote character. -/
def dqChar : Char := Char.ofNat 34

/-- The backslash character. -/
def bsChar : Char := Char.ofNat 92

/-- Lower-case hexadecimal digit for a value below 16. -/
def hexDigit (n : Nat) : Char :=
  if n < 10 then Char.ofNat (48 + n) else Char.ofNat (87 + n)

/-- How Python's string repr renders one character, given the chosen quote
character: backslash and the quote are escaped, newline / carriage return /
tab use their two-character escapes, other control bytes use a hex escape,
and everything else is rendered literally. -/
def pyEscapeChar (quote : Char) (c : Char) : List Char :=
  if c = bsChar then [bsChar, bsChar]
  else if c = quote then [bsChar, quote]
  else if c = Char.ofNat 10 then [bsChar, Char.ofNat 110]
  else if c = Char.ofNat 13 then [bsChar, Char.ofNat 114]
  else if c = Char.ofNat 9 then [bsChar, Char.ofNat 116]
  else if c.toNat < 32 || c.toNat == 127 then
    [bsChar, Char.ofNat 120, hexDigit (c.toNat / 16), hexDigit (c.toNat % 16)]
  else [c]

/-- Python's `repr` of a `str`: single quotes by default, switching to double
quotes when the string contains a single quote but no double quote. -/
def pyReprStr (s : String) : String :=
  let cs := s.toList
  let quote := if cs.contains sqChar && !(cs.contains dqChar) then dqChar else sqChar
  ⟨quote :: (cs.flatMap (pyEscapeChar quote)) ++ [quote]⟩

/-- Python's `str` of a list of pairs of strings; this is
`str(sorted(filters.items()))` once the sorted pair list is known. -/
def pyStrPairList (l : List (String × String)) : String :=
  "[" ++ String.intercalate ", " (l.map (fun p =>
    "(" ++ pyReprStr p.1 ++ ", " ++ pyReprStr p.2 ++ ")")) ++ "]"

/-- Python's `str` of a tuple of strings (`str(args)` inside
`get_cache_key`): a one-element tuple carries a trailing comma. -/
def pyStrArgs : List String → String
  | [] => "()"
  | [a] => "(" ++ pyReprStr a ++ ",)"
  | l => "(" ++ String.intercalate ", " (l.map pyReprStr) ++ ")"

/-- UTF-8 encoding of one character, as byte values (Python
`str.encode()`). -/
def utf8Bytes (c : Char) : List Nat :=
  let n := c.toNat
  if n < 128 then [n]
  else if n < 2048 then [192 + n / 64, 128 + n % 64]
  else if n < 65536 then [224 + n / 4096, 128 + (n / 64) % 64, 128 + n % 64]
  else [240 + n / 262144, 128 + (n / 4096) % 64, 128 + (n / 64) % 64, 128 + n % 64]

/-- UTF-8 byte sequence of a string. -/
def strBytes (s : String) : List Nat := s.data.flatMap utf8Bytes

/-- Python whitespace stripping (`str.strip()` with no argument, and the
whitespace tolerance of `int()`). -/
def stripWs (cs : List Char) : List Char :=
  ((cs.dropWhile Char.isWhitespace).reverse.dropWhile Char.isWhitespace).reverse

/-- `str.strip()`. -/
def pyStrip (s : String) : String := ⟨stripWs s.data⟩

/-- Digit-sequence part of Python's `int()`: decimal digits, with single
underscores allowed between digits.  `acc` is the value of the digits
already consumed; the previous character is always a digit on entry. -/
def pyDigitsGo (acc : Nat) : List Char → Option Nat
  | [] => some acc
  | c :: rest =>
    if c.isDigit then pyDigitsGo (10 * acc + (c.toNat - 48)) rest
    else if c = Char.ofNat 95 then
      match rest with
      | d :: _ => if d.isDigit then pyDigitsGo acc rest else none
      | [] => none
    else none

/-- Parse a nonempty digit sequence (with optional internal underscores);
the first character must be a digit. -/
def pyDigits : List Char → Option Nat
  | [] => none
  | c :: rest => if c.isDigit then pyDigitsGo (c.toNat - 48) rest else none

/-- Python `int(s)` for a string argument: optional surrounding whitespace,
an optional sign, then a digit sequence; anything else raises `ValueError`,
modelled as `none`. -/
def parsePyInt (s : String) : Option Int :=
  let cs := stripWs s.toList
  match cs with
  | [] => none
  | c :: rest =>
    if c = Char.ofNat 43 then (pyDigits rest).map Int.ofNat
    else if c = Char.ofNat 45 then (pyDigits rest).map (fun n => -(n : Int))
    else (pyDigits cs).map Int.ofNat

/-! ## MD5 (RFC 1321) as used by `hashlib.md5(raw.encode()).hexdigest()`

Word arithmetic is on `Nat`, reduced modulo `2^32` wherever Python/C would
wrap. -/

/-- `2^32`. -/
def u32 : Nat := 4294967296

/-- The 64 MD5 sine-derived constants. -/
def md5K : List Nat := [3614090360, 3905402710, 606105819, 3250441966,
  4118548399, 1200080426, 2821735955, 4249261313, 1770035416, 2336552879,
  4294925233, 2304563134, 1804603682, 4254626195, 2792965006, 1236535329,
  4129170786, 3225465664, 643717713, 3921069994, 3593408605, 38016083,
  3634488961, 3889429448, 568446438, 3275163606, 4107603335, 1163531501,
  2850285829, 4243563512, 1735328473, 2368359562, 4294588738, 2272392833,
  1839030562, 4259657740, 2763975236, 1272893353, 4139469664, 3200236656,
  681279174, 3936430074, 3572445317, 76029189, 3654602809, 3873151461,
  530742520, 3299628645, 4096336452, 1126891415, 2878612391, 4237533241,
  1700485571, 2399980690, 4293915773, 2240044497, 1873313359, 4264355552,
  2734768916, 1309151649, 4149444226, 3174756917, 718787259, 3951481745]

/-- The 64 MD5 per-round left-rotation amounts. -/
def md5S : List Nat := [7, 12, 17, 22, 7, 12, 17, 22, 7, 12, 17, 22, 7, 12,
  17, 22, 5, 9, 14, 20, 5, 9, 14, 20, 5, 9, 14, 20, 5, 9, 14, 20, 4, 11, 16,
  23, 4, 11, 16, 23, 4, 11, 16, 23, 4, 11, 16, 23, 6, 10, 15, 21, 6, 10, 15,
  21, 6, 10, 15, 21, 6, 10, 15, 21]

/-- Bitwise complement of a 32-bit word represented as a `Nat` below
`2^32`. -/
def not32 (x : Nat) : Nat := 4294967295 - x

/-- Left rotation of a 32-bit word. -/
def rotl32 (x n : Nat) : Nat := ((x <<< n) % u32) ||| (x >>> (32 - n))

/-- MD5 message padding: `0x80`, zeros up to 56 mod 64, then the bit length
as eight little-endian bytes. -/
def md5Pad (msg : List Nat) : List Nat :=
  let z := (56 + 64 - ((msg.length + 1) % 64)) % 64
  msg ++ [128] ++ List.replicate z 0 ++
    (List.range 8).map (fun i => ((8 * msg.length) >>> (8 * i)) % 256)

/-- Split a byte list into 64-byte chunks (fuel-driven; the length is
always enough fuel). -/
def chunks64 : Nat → List Nat → List (List Nat)
  | 0, _ => []
  | _, [] => []
  | fuel + 1, l => l.take 64 :: chunks64 fuel (l.drop 64)

/-- One MD5 round.  The state is `(A, B, C, D)`; `M` holds the sixteen
message words of the current chunk. -/
def md5Step (M : List Nat) (st : Nat × Nat × Nat × Nat) (i : Nat) :
    Nat × Nat × Nat × Nat :=
  let (A, B, C, D) := st
  let Fg : Nat × Nat :=
    if i < 16 then ((B.land C).lor ((not32 B).land D), i)
    else if i < 32 then ((D.land B).lor ((not32 D).land C), (5 * i + 1) % 16)
    else if i < 48 then ((B.xor C).xor D, (3 * i + 5) % 16)
    else (C.xor (B.lor (not32 D)), (7 * i) % 16)
  let Fv := (Fg.1 + A + md5K.getD i 0 + M.getD Fg.2 0) % u32
  (D, (B + rotl32 Fv (md5S.getD i 0)) % u32, B, C)

/-- Process one 64-byte chunk. -/
def md5Block (st : Nat × Nat × Nat × Nat) (chunk : List Nat) :
    Nat × Nat × Nat × Nat :=
  let M := (List.range 16).map
    (fun j => ((chunk.drop (4 * j)).take 4).foldr (fun b acc => b + 256 * acc) 0)
  let r := (List.range 64).foldl (md5Step M) st
  ((st.1 + r.1) % u32, (st.2.1 + r.2.1) % u32,
   (st.2.2.1 + r.2.2.1) % u32, (st.2.2.2 + r.2.2.2) % u32)

/-- MD5 digest of a byte list, as sixteen bytes. -/
def md5Bytes (msg : List Nat) : List Nat :=
  let f := (chunks64 (md5Pad msg).length (md5Pad msg)).foldl md5Block
    (1732584193, 4023233417, 2562383102, 271733878)
  [f.1, f.2.1, f.2.2.1, f.2.2.2].flatMap
    (fun w => (List.range 4).map (fun i => (w >>> (8 * i)) % 256))

/-- `hashlib.md5(s.encode()).hexdigest()`: lower-case hex digest of the
UTF-8 bytes of `s`. -/
def md5hex (s : String) : String :=
  ⟨(md5Bytes (strBytes s)).flatMap (fun b => [hexDigit (b / 16), hexDigit (b % 16)])⟩

/-! ## Data model (`business/models.py`, view layer)

`InvoiceViewSet.queryset` is
`Invoice.objects.select_related('person').only('id', 'invoice_type',
'amount', 'date', 'is_paid', 'person__name', 'person__role')`: the rows the
views operate on carry exactly these columns (plus the foreign key used by
the `person_id` filter and by `mark_all_paid`).

A `DecimalField(max_digits=12, decimal_places=2)` value is exactly an
integer multiple of 10^-2; every decimal column is embedded as that integer
(the value in minor units), so that the sums the views take are exact —
the views never multiply or divide amounts. -/

/-- A calendar date (`models.DateField`). -/
structure PyDate where
  year : Nat
  month : Nat
  day : Nat
deriving DecidableEq, Repr

/-- Date comparison used by the `date__gte` / `date__lte` lookups and by
`order_by('-date')`. -/
def dateLe (a b : PyDate) : Bool :=
  a.year < b.year || (a.year == b.year &&
    (a.month < b.month || (a.month == b.month && a.day ≤ b.day)))

/-- An invoice row as the viewset's queryset sees it (invoice columns
selected by `.only(...)`, joined with its person's name and role via
`select_related('person')`). -/
structure InvRow where
  id : Nat
  invoice_type : String
  amount : Int
  date : PyDate
  is_paid : Bool
  person_id : Nat
  person_name : String
  person_role : String
deriving DecidableEq, Repr

/-- `MONTH_NAMES` from `business/views.py`. -/
def MONTH_NAMES : List String := ["January", "February", "March", "April",
  "May", "June", "July", "August", "September", "October", "November",
  "December"]

/-! ## Query parameters and cache keys -/

/-- `request.query_params.dict()`: a string-to-string mapping, kept as an
association list in insertion order (keys of a Python dict are distinct). -/
abbrev Params := List (String × String)

/-- `filters.get(k)` on the parameter dict. -/
def getParam (ps : Params) (k : String) : Option String :=
  (ps.find? (fun p => p.1 == k)).map Prod.snd

/-- Python string comparison: strict lexicographic order on code points. -/
def charListLt : List Char → List Char → Bool
  | _, [] => false
  | [], _ :: _ => true
  | a :: as, b :: bs => decide (a.toNat < b.toNat) || (a == b && charListLt as bs)

/-- Python `a < b` on strings. -/
def pyStrLt (a b : String) : Bool := charListLt a.data b.data

/-- Python `a <= b` on strings. -/
def pyStrLe (a b : String) : Bool := pyStrLt a b || a == b

/-- The comparison Python's `sorted` uses on `(key, value)` string tuples:
lexicographic by code points on the first component, then the second. -/
def pairLe (a b : String × String) : Bool :=
  if a.1 == b.1 then pyStrLe a.2 b.2 else pyStrLt a.1 b.1

/-- `sorted(filters.items())`: Python sorts stably by the tuple order; with
a total, antisymmetric comparison the result is the unique sorted
arrangement, here by structural insertion sort. -/
def pySorted (l : Params) : Params :=
  List.insertionSort (fun a b => pairLe a b = true) l

/-- `get_cache_key(prefix, *args)` (no keyword arguments are ever passed):
`raw = prefix + str(args) + str(kwargs)` is hashed with MD5 and the key is
`"rksuppliers:invoice:{prefix}:{hashed}"`.  `str(kwargs)` is the empty-dict
rendering. -/
def getCacheKey (opName : String) (args : List String) : String :=
  "rksuppliers:invoice:" ++ opName ++ ":" ++
    md5hex (opName ++ pyStrArgs args ++ "\x7b\x7d")

/-- The cache key a list-style view derives:
`get_cache_key(op, str(sorted(filters.items())))`. -/
def deriveKey (opName : String) (ps : Params) : String :=
  getCacheKey opName [pyStrPairList (pySorted ps)]

/-! ## Django aggregate semantics for this code base

The views build aggregates such as
`Sum('amount', filter=F('invoice_type')=='purchase')`.  In Python,
`F('invoice_type') == 'purchase'` is an ordinary `==` between an `F`
expression object and a string; `F.__eq__` compares objects, so the result
is the Python bool `False` — not a `Q` condition.  Django's
`Aggregate.get_source_expressions` guards the filter argument with a
truthiness test (`if self.filter:`), so a falsy filter argument is dropped
and the sum ranges over every row of the queryset. -/

/-- The `filter=` argument of a Django `Sum` as it occurs in this code
base. -/
inductive AggFilter (α : Type) where
  | noFilter : AggFilter α
  | pyFalse : AggFilter α
  | cond (p : α → Bool) : AggFilter α

/-- `F('invoice_type') == 'purchase'`: evaluates to the Python bool
`False`. -/
def fEqPurchase : AggFilter InvRow := AggFilter.pyFalse

/-- `F('invoice_type') == 'sale'`: evaluates to the Python bool `False`. -/
def fEqSale : AggFilter InvRow := AggFilter.pyFalse

/-- `F('is_paid') == False`: evaluates to the Python bool `False`. -/
def fEqNotPaid : AggFilter InvRow := AggFilter.pyFalse

/-- `Sum('amount', filter=...)`: `none` is SQL NULL (no qualifying rows);
a falsy filter argument is dropped by Django, so `pyFalse` sums over the
whole queryset exactly like `noFilter`. -/
def aggSum (l : List InvRow) (f : AggFilter InvRow) : Option Int :=
  let rows := match f with
    | AggFilter.cond p => l.filter p
    | _ => l
  match rows with
  | [] => none
  | _ => some ((rows.map InvRow.amount).sum)

/-- What the specification's Aggregator asks for: the sum of `amount` over
the rows satisfying a predicate (0 on the empty set). -/
def sumAmountWhere (l : List InvRow) (p : InvRow → Bool) : Int :=
  ((l.filter p).map InvRow.amount).sum

/-! ## Pagination (`InvoiceViewSet.paginate_queryset`) -/

/-- Parse `skip`/`take`: absent parameters default to the Python ints 0 and
10 before parsing; a parse failure, or `skip < 0`, or `take < 1` (the
`raise ValueError` inside the `try`) resets BOTH to `(0, 10)`. -/
def paginateParams (skipP takeP : Option String) : Int × Int :=
  let sk? := match skipP with
    | none => some (0 : Int)
    | some s => parsePyInt s
  let tk? := match takeP with
    | none => some (10 : Int)
    | some s => parsePyInt s
  match sk?, tk? with
  | some sk, some tk => if sk < 0 || tk < 1 then (0, 10) else (sk, tk)
  | _, _ => (0, 10)

/-- Python slice `l[skip : skip + take]` for the non-negative bounds the
view produces. -/
def pySlice (l : List α) (skip take : Nat) : List α := (l.drop skip).take take

/-- `paginate_queryset(queryset, request)`. -/
def paginateQueryset (l : List α) (skipP takeP : Option String) : List α :=
  let st := paginateParams skipP takeP
  pySlice l st.1.toNat st.2.toNat

/-! ## The filter pipeline of `purchase` / `sell` / `dashboard` -/

/-- Error outcomes a request can surface. -/
inductive ReqErr where
  /-- An exception from the cache backend (`cache.get` / `cache.set`). -/
  | cacheFailure : ReqErr
  /-- `django.core.exceptions.ValidationError`, e.g. from an unparseable
  `DateField` filter value. -/
  | validationError : ReqErr
  /-- An uncaught `ValueError`, e.g. from coercing a garbage `person_id`. -/
  | valueError : ReqErr
  /-- A not-found response (missing person or invoice). -/
  | notFound : ReqErr
deriving DecidableEq, Repr

/-- The month step: applied only when the parameter is present, nonempty
(truthiness of `if month and month != "All"`) and not `"All"`;
`MONTH_NAMES.index(month)` raises `ValueError` for any string not in the
table — including numeric strings — and the `except ValueError: pass`
leaves the queryset unfiltered. -/
def monthFilterStep (month : Option String) (qs : List InvRow) : List InvRow :=
  match month with
  | none => qs
  | some m =>
    if m == "" || m == "All" then qs
    else
      match MONTH_NAMES.indexOf? m with
      | some idx => qs.filter (fun v => v.date.month == idx + 1)
      | none => qs

/-- The year step: `if year: try: qs.filter(date__year=int(year))
except (ValueError, TypeError): pass` — a parse failure silently omits the
filter. -/
def yearFilterStep (year : Option String) (qs : List InvRow) : List InvRow :=
  match year with
  | none => qs
  | some y =>
    if y == "" then qs
    else
      match parsePyInt y with
      | some n => qs.filter (fun v => ((v.date.year : Int) == n : Bool))
      | none => qs

/-- Substring test on character lists (the containment underlying
`icontains`). -/
def containsSub : List Char → List Char → Bool
  | [], needle => needle.isEmpty
  | h :: t, needle => needle.isPrefixOf (h :: t) || containsSub t needle

/-- The search step: `search = filters.get('search', '').strip()`;
`if search: qs.filter(person__name__icontains=search)` — case-insensitive
containment on the joined person name. -/
def searchFilterStep (searchRaw : Option String) (qs : List InvRow) : List InvRow :=
  let s := pyStrip (searchRaw.getD "")
  if s == "" then qs
  else qs.filter (fun v => containsSub v.person_name.toLower.data s.toLower.data)

/-- The person step: `if filters.get('person_id'):
qs.filter(person_id=filters['person_id'])` — Django coerces the string to
the integer primary key; an unparseable value raises `ValueError`
(uncaught in the view). -/
def personIdFilterStep (v : Option String) (qs : List InvRow) :
    Except ReqErr (List InvRow) :=
  match v with
  | none => Except.ok qs
  | some s =>
    if s == "" then Except.ok qs
    else
      match parsePyInt s with
      | some n => Except.ok (qs.filter (fun i => ((i.person_id : Int) == n : Bool)))
      | none => Except.error ReqErr.valueError

/-- Number of days in a month (`datetime.date` validation). -/
def daysInMonth (y m : Nat) : Nat :=
  if m == 2 then
    if y % 4 == 0 && (y % 100 != 0 || y % 400 == 0) then 29 else 28
  else if m == 4 || m == 6 || m == 9 || m == 11 then 30
  else 31

/-- Split a character list at every occurrence of a separator (the
char-level equivalent of splitting a Python string on a separator). -/
def splitOnChar (sep : Char) : List Char → List (List Char)
  | [] => [[]]
  | c :: rest =>
    let r := splitOnChar sep rest
    if c == sep then [] :: r
    else
      match r with
      | h :: t => (c :: h) :: t
      | [] => [[c]]

/-- Django's parsing of a `DateField` filter value: `YYYY-MM-DD` (month and
day may be one or two digits), validated as a real calendar date; any
other string makes the ORM raise `ValidationError`. -/
def parseDjangoDate (s : String) : Option PyDate :=
  match splitOnChar (Char.ofNat 45) s.data with
  | [ys, ms, ds] =>
    if ys.length == 4 && ys.all Char.isDigit &&
       decide (1 ≤ ms.length) && decide (ms.length ≤ 2) && ms.all Char.isDigit &&
       decide (1 ≤ ds.length) && decide (ds.length ≤ 2) && ds.all Char.isDigit then
      let y := ys.foldl (fun a c => 10 * a + (c.toNat - 48)) (0 : Nat)
      let m := ms.foldl (fun a c => 10 * a + (c.toNat - 48)) (0 : Nat)
      let d := ds.foldl (fun a c => 10 * a + (c.toNat - 48)) (0 : Nat)
      if decide (1 ≤ m) && decide (m ≤ 12) && decide (1 ≤ d) &&
         decide (d ≤ daysInMonth y m) then
        some ⟨y, m, d⟩
      else none
    else none
  | _ => none

/-- The `date_from` step: `if filters.get('date_from'):
qs.filter(date__gte=filters['date_from'])` — the raw string goes straight
to the ORM, which raises `ValidationError` on a malformed date; there is no
try/except around it in the view. -/
def dateFromFilterStep (v : Option String) (qs : List InvRow) :
    Except ReqErr (List InvRow) :=
  match v with
  | none => Except.ok qs
  | some s =>
    if s == "" then Except.ok qs
    else
      match parseDjangoDate s with
      | some d => Except.ok (qs.filter (fun i => dateLe d i.date))
      | none => Except.error ReqErr.validationError

/-- The `date_to` step: `qs.filter(date__lte=filters['date_to'])`, same
error behaviour as `date_from`. -/
def dateToFilterStep (v : Option String) (qs : List InvRow) :
    Except ReqErr (List InvRow) :=
  match v with
  | none => Except.ok qs
  | some s =>
    if s == "" then Except.ok qs
    else
      match parseDjangoDate s with
      | some d => Except.ok (qs.filter (fun i => dateLe i.date d))
      | none => Except.error ReqErr.validationError

/-- The `is_paid` step: `in ['true', '1']` filters paid, `in ['false',
'0']` filters unpaid, anything else (including an absent parameter) leaves
the queryset alone. -/
def isPaidFilterStep (v : Option String) (qs : List InvRow) : List InvRow :=
  match v with
  | none => qs
  | some s =>
    if s == "true" || s == "1" then qs.filter (fun i => i.is_paid)
    else if s == "false" || s == "0" then qs.filter (fun i => !i.is_paid)
    else qs

/-- `order_by('-date')`: stable sort by date descending. -/
def orderByDateDesc (qs : List InvRow) : List InvRow :=
  List.insertionSort (fun a b => dateLe b.date a.date = true) qs

/-- The whole filter pipeline of `InvoiceViewSet.purchase` (and `sell`,
which is identical except for the scoped `invoice_type`): type scope, then
month, year, search, person, date range, `is_paid`, then
`order_by('-date')`. -/
def scopedQueryset (ty : String) (ps : Params) (invs : List InvRow) :
    Except ReqErr (List InvRow) := do
  let qs := invs.filter (fun i => i.invoice_type == ty)
  let qs := monthFilterStep (getParam ps "month") qs
  let qs := yearFilterStep (getParam ps "year") qs
  let qs := searchFilterStep (getParam ps "search") qs
  let qs ← personIdFilterStep (getParam ps "person_id") qs
  let qs ← dateFromFilterStep (getParam ps "date_from") qs
  let qs ← dateToFilterStep (getParam ps "date_to") qs
  let qs := isPaidFilterStep (getParam ps "is_paid") qs
  return orderByDateDesc qs

/-! ## View response data -/

/-- The payload `InvoiceViewSet.list` builds:
`total_purchase=Sum('amount', filter=F('invoice_type')=='purchase')` and
`total_sell=Sum('amount', filter=F('invoice_type')=='sale')` over the
(un-paginated) filtered queryset, `float(... or 0)` turning SQL NULL into
0, and the paginated page as `results`. -/
structure ListData where
  total_purchase : Int
  total_sell : Int
  results : List InvRow
deriving DecidableEq, Repr

/-- `InvoiceViewSet.list` response computation.  The viewset configures no
filter backends, so `self.filter_queryset(self.get_queryset())` returns the
base queryset unchanged; the function is stated over an arbitrary filtered
record set `qs`. -/
def listViewData (ps : Params) (qs : List InvRow) : ListData :=
  { total_purchase := (aggSum qs fEqPurchase).getD 0,
    total_sell := (aggSum qs fEqSale).getD 0,
    results := paginateQueryset qs (getParam ps "skip") (getParam ps "take") }

/-- The payload of the scoped `purchase` / `sell` actions:
`total_amount=Sum('amount')`,
`total_pending=Sum('amount', filter=F('is_paid')==False)`, the count of the
filtered set taken before pagination, and the page. -/
structure ScopedData where
  total_amount : Int
  total_pending : Int
  count : Nat
  results : List InvRow
deriving DecidableEq, Repr

/-- Aggregates + pagination of `InvoiceViewSet.purchase` (`ty = "purchase"`)
and `InvoiceViewSet.sell` (`ty = "sale"`), after the shared filter
pipeline. -/
def scopedViewData (ty : String) (ps : Params) (invs : List InvRow) :
    Except ReqErr ScopedData := do
  let qs ← scopedQueryset ty ps invs
  return { total_amount := (aggSum qs AggFilter.noFilter).getD 0,
           total_pending := (aggSum qs fEqNotPaid).getD 0,
           count := qs.length,
           results := paginateQueryset qs (getParam ps "skip") (getParam ps "take") }

/-- One entry of the dashboard's `pending` list, as the view constructs it
from `values('person__name', 'amount', 'person__role')`. -/
structure PendingRow where
  person_name : String
  invoice_count : Nat
  total_amount : Int
  invoice_type : String
  role : String
deriving DecidableEq, Repr

/-- The dashboard filter pipeline: only month, year and search are applied
(no person / date-range / `is_paid` filters in `dashboard`). -/
def dashboardQs (ps : Params) (invs : List InvRow) : List InvRow :=
  let qs := monthFilterStep (getParam ps "month") invs
  let qs := yearFilterStep (getParam ps "year") qs
  searchFilterStep (getParam ps "search") qs

/-- The dashboard's `pending` list: the five most recent unpaid purchases,
then the five most recent unpaid sales, each as an individual row with a
hardcoded `invoice_count` of 1 and that invoice's own amount. -/
def dashboardPending (qs : List InvRow) : List PendingRow :=
  let pp := (orderByDateDesc (qs.filter
    (fun i => i.invoice_type == "purchase" && !i.is_paid))).take 5
  let sl := (orderByDateDesc (qs.filter
    (fun i => i.invoice_type == "sale" && !i.is_paid))).take 5
  pp.map (fun i => { person_name := i.person_name, invoice_count := 1,
                     total_amount := i.amount, invoice_type := "purchase",
                     role := i.person_role }) ++
  sl.map (fun i => { person_name := i.person_name, invoice_count := 1,
                     total_amount := i.amount, invoice_type := "sale",
                     role := i.person_role })

/-- The dashboard payload: the two (bugged, see `AggFilter`) totals, the
five most recent invoices per type, and the `pending` list. -/
structure DashData where
  total_purchase : Int
  total_sales : Int
  recent_purchases : List InvRow
  recent_sales : List InvRow
  pending : List PendingRow
deriving DecidableEq, Repr

/-- `InvoiceViewSet.dashboard` response computation. -/
def dashData (ps : Params) (invs : List InvRow) : DashData :=
  let qs := dashboardQs ps invs
  { total_purchase := (aggSum qs fEqPurchase).getD 0,
    total_sales := (aggSum qs fEqSale).getD 0,
    recent_purchases :=
      (orderByDateDesc (qs.filter (fun i => i.invoice_type == "purchase"))).take 5,
    recent_sales :=
      (orderByDateDesc (qs.filter (fun i => i.invoice_type == "sale"))).take 5,
    pending := dashboardPending qs }

/-! ## The cache store and the cached request handlers -/

/-- A value stored in the cache: the serialized response body of whichever
view populated the key. -/
inductive Payload where
  | listP (d : ListData)
  | scopedP (d : ScopedData)
  | dashP (d : DashData)
  | retrieveP (d : InvRow)
  | namesP (names : List String)
deriving DecidableEq, Repr

/-- The external Redis cache: keys to payloads. -/
abbrev CacheState := List (String × Payload)

/-- Whether each cache-backend operation fails by raising (a connection
error or similar). -/
structure CacheBehavior where
  getFails : Bool
  setFails : Bool
  delFails : Bool
deriving DecidableEq, Repr

/-- A cache backend with no failures. -/
def okCache : CacheBehavior := ⟨false, false, false⟩

/-- Key lookup in the cache store (the non-failing part of `cache.get`). -/
def cacheLookup (c : CacheState) (k : String) : Option Payload :=
  (c.find? (fun kv => kv.1 == k)).map Prod.snd

/-- `cache.get(key)` as the views call it — not wrapped in any try/except,
so a backend failure propagates out of the request handler. -/
def cacheGet (b : CacheBehavior) (c : CacheState) (k : String) :
    Except ReqErr (Option Payload) :=
  if b.getFails then Except.error ReqErr.cacheFailure
  else Except.ok (cacheLookup c k)

/-- `cache.set(key, data, ttl)` as the views call it — also not wrapped, so
a backend failure propagates.  TTLs only govern expiry inside Redis and are
not part of the store model. -/
def cacheSet (b : CacheBehavior) (c : CacheState) (k : String) (v : Payload) :
    Except ReqErr CacheState :=
  if b.setFails then Except.error ReqErr.cacheFailure
  else Except.ok ((k, v) :: c.filter (fun kv => !(kv.1 == k)))

/-- Whether a key matches the glob `"rksuppliers:invoice:*"` used by
`clear_cache`. -/
def inNamespace (k : String) : Bool :=
  "rksuppliers:invoice:".data.isPrefixOf k.data

/-- `clear_cache`: `cache.delete_pattern("rksuppliers:invoice:*")` inside
`try/except Exception` — a backend failure is absorbed (logged) and leaves
the store as it was; on success every key under the namespace is gone. -/
def clearCache (b : CacheBehavior) (c : CacheState) : CacheState :=
  if b.delFails then c else c.filter (fun kv => !(inNamespace kv.1))

/-- Mutable state a request sees: the cache plus the record store (invoice
rows as the viewset's queryset projects them, and the person ids present in
the `Person` table, used by `mark_all_paid`). -/
structure SysState where
  cache : CacheState
  invs : List InvRow
  personIds : List Nat
deriving DecidableEq, Repr

/-- `InvoiceViewSet.list`: derive the key, `cache.get`; on a hit return the
cached payload, on a miss compute, `cache.set`, respond. -/
def listView (b : CacheBehavior) (st : SysState) (ps : Params) :
    Except ReqErr (Payload × SysState) := do
  let key := deriveKey "list" ps
  let cached ← cacheGet b st.cache key
  match cached with
  | some p => return (p, st)
  | none =>
    let d := listViewData ps st.invs
    let c' ← cacheSet b st.cache key (Payload.listP d)
    return (Payload.listP d, { st with cache := c' })

/-- `InvoiceViewSet.purchase`. -/
def purchaseView (b : CacheBehavior) (st : SysState) (ps : Params) :
    Except ReqErr (Payload × SysState) := do
  let key := deriveKey "purchase" ps
  let cached ← cacheGet b st.cache key
  match cached with
  | some p => return (p, st)
  | none =>
    let d ← scopedViewData "purchase" ps st.invs
    let c' ← cacheSet b st.cache key (Payload.scopedP d)
    return (Payload.scopedP d, { st with cache := c' })

/-- `InvoiceViewSet.sell`. -/
def sellView (b : CacheBehavior) (st : SysState) (ps : Params) :
    Except ReqErr (Payload × SysState) := do
  let key := deriveKey "sell" ps
  let cached ← cacheGet b st.cache key
  match cached with
  | some p => return (p, st)
  | none =>
    let d ← scopedViewData "sale" ps st.invs
    let c' ← cacheSet b st.cache key (Payload.scopedP d)
    return (Payload.scopedP d, { st with cache := c' })

/-- `InvoiceViewSet.dashboard`. -/
def dashboardView (b : CacheBehavior) (st : SysState) (ps : Params) :
    Except ReqErr (Payload × SysState) := do
  let key := deriveKey "dashboard" ps
  let cached ← cacheGet b st.cache key
  match cached with
  | some p => return (p, st)
  | none =>
    let d := dashData ps st.invs
    let c' ← cacheSet b st.cache key (Payload.dashP d)
    return (Payload.dashP d, { st with cache := c' })

/-- `InvoiceViewSet.retrieve`: keyed by the primary-key path parameter; on
a miss, `super().retrieve` looks the row up (404 when absent) and the
response is cached. -/
def retrieveView (b : CacheBehavior) (st : SysState) (pk : String) :
    Except ReqErr (Payload × SysState) := do
  let key := getCacheKey "retrieve" [pk]
  let cached ← cacheGet b st.cache key
  match cached with
  | some p => return (p, st)
  | none =>
    match st.invs.find? (fun i => toString i.id == pk) with
    | none => Except.error ReqErr.notFound
    | some row => do
      let c' ← cacheSet b st.cache key (Payload.retrieveP row)
      return (Payload.retrieveP row, { st with cache := c' })

/-! ## Mutations and cache invalidation -/

/-- The mutating endpoints of `InvoiceViewSet`.  `create` carries the
validated row the serializer would save; `update` / `partialUpdate` carry
the row state after the serializer applied the request body. -/
inductive Mutation where
  | create (row : InvRow)
  | update (pk : Nat) (row : InvRow)
  | partialUpdate (pk : Nat) (row : InvRow)
  | destroy (pk : Nat)
  | markAllPaid (personId : Nat)
deriving DecidableEq, Repr

/-- Run a mutating endpoint: on success the store is updated and
`self.clear_cache()` runs; a failure (missing invoice / person: the 404
paths, or an exception inside `super().update` / `super().destroy`) returns
before `clear_cache` is reached, modelled as `none`.  `b` carries the cache
backend's failure behaviour; `clear_cache` absorbs a delete failure. -/
def applyMutation (b : CacheBehavior) (m : Mutation) (st : SysState) :
    Option SysState :=
  match m with
  | Mutation.create row =>
    some { st with invs := st.invs ++ [row], cache := clearCache b st.cache }
  | Mutation.update pk row =>
    if st.invs.any (fun i => i.id == pk) then
      some { st with invs := st.invs.map (fun i => if i.id == pk then row else i),
                     cache := clearCache b st.cache }
    else none
  | Mutation.partialUpdate pk row =>
    if st.invs.any (fun i => i.id == pk) then
      some { st with invs := st.invs.map (fun i => if i.id == pk then row else i),
                     cache := clearCache b st.cache }
    else none
  | Mutation.destroy pk =>
    if st.invs.any (fun i => i.id == pk) then
      some { st with invs := st.invs.filter (fun i => !(i.id == pk)),
                     cache := clearCache b st.cache }
    else none
  | Mutation.markAllPaid personId =>
    if st.personIds.contains personId then
      some { st with
        invs := st.invs.map (fun i =>
          if i.person_id == personId && !i.is_paid then { i with is_paid := true } else i),
        cache := clearCache b st.cache }
    else none

/-! ## The relational layer and `InvoiceSerializer.update`
(`business/serializers.py`, `business/models.py`)

The serializer works on the actual tables, so this layer models `Person`,
`Invoice` and `InvoiceItem` rows relationally (fields that no claim touches
— timestamps and the generated-PDF reference — are omitted). -/

/-- A `Person` row. -/
structure PersonT where
  id : Nat
  name : String
  role : String
deriving DecidableEq, Repr

/-- An `Invoice` row with its writable columns. -/
structure InvoiceRow where
  id : Nat
  person_id : Nat
  invoice_type : String
  amount : Int
  date : PyDate
  is_paid : Bool
  travel_text : String
  additional_charge_percent : Int
  additional_charge_amount : Int
  transport_charge : Int
  subtotal : Int
  grand_total : Int
deriving DecidableEq, Repr

/-- An `InvoiceItem` row. -/
structure ItemRow where
  id : Nat
  invoice_id : Nat
  item_name : String
  quantity : Int
  unit : String
  price_per_unit : Int
  total : Int
deriving DecidableEq, Repr

/-- The record store the serializer mutates. -/
structure DB where
  persons : List PersonT
  invoices : List InvoiceRow
  items : List ItemRow
deriving DecidableEq, Repr

/-- `person_data` as `InvoiceSerializer.update` consumes it:
`person_data.get('name', person.name)` /
`person_data.get('role', person.role)` keep the old column when the key is
absent. -/
structure PersonData where
  name : Option String
  role : Option String
deriving DecidableEq, Repr

/-- One entry of `items_data` (the writable item columns). -/
structure ItemData where
  item_name : String
  quantity : Int
  unit : String
  price_per_unit : Int
  total : Int
deriving DecidableEq, Repr

/-- The `validated_data` reaching `InvoiceSerializer.update`: the write-only
`person_data` / `items_data` (popped first; `some` models a truthy
non-empty dict for `person_data` and `is not None` for `items_data`), and
the writable invoice columns that may be present.  `person` itself is
declared `read_only=True`, so the foreign key is never part of
`validated_data`. -/
structure ValidatedData where
  person_data : Option PersonData
  items_data : Option (List ItemData)
  invoice_type : Option String
  amount : Option Int
  date : Option PyDate
  is_paid : Option Bool
  travel_text : Option String
  additional_charge_percent : Option Int
  additional_charge_amount : Option Int
  transport_charge : Option Int
  subtotal : Option Int
  grand_total : Option Int
deriving DecidableEq, Repr

/-- `for attr, value in validated_data.items(): setattr(instance, attr,
value)`: overwrite exactly the supplied invoice columns. -/
def applyInvoiceFields (vd : ValidatedData) (i : InvoiceRow) : InvoiceRow :=
  { i with
    invoice_type := vd.invoice_type.getD i.invoice_type,
    amount := vd.amount.getD i.amount,
    date := vd.date.getD i.date,
    is_paid := vd.is_paid.getD i.is_paid,
    travel_text := vd.travel_text.getD i.travel_text,
    additional_charge_percent :=
      vd.additional_charge_percent.getD i.additional_charge_percent,
    additional_charge_amount :=
      vd.additional_charge_amount.getD i.additional_charge_amount,
    transport_charge := vd.transport_charge.getD i.transport_charge,
    subtotal := vd.subtotal.getD i.subtotal,
    grand_total := vd.grand_total.getD i.grand_total }

/-- `InvoiceSerializer.update(instance, validated_data)`:

* if `person_data` is truthy, the person row `instance.person` references
  is overwritten in place (`person.name = person_data.get('name',
  person.name)`; `person.role = ...`; `person.save()`) — no new `Person` is
  created and the invoice keeps its foreign key;
* the supplied invoice columns are written and `instance.save()` runs;
* if `items_data` is not `None`, `instance.items.all().delete()` removes
  the invoice's items and the supplied ones are created in order (with
  fresh autofield ids). -/
def serializerUpdate (db : DB) (inst : InvoiceRow) (vd : ValidatedData) : DB :=
  let db1 :=
    match vd.person_data with
    | some pd =>
      { db with persons := db.persons.map (fun (p : PersonT) =>
          if p.id == inst.person_id then
            { p with name := pd.name.getD p.name, role := pd.role.getD p.role }
          else p) }
    | none => db
  let newInv := applyInvoiceFields vd inst
  let db2 := { db1 with invoices := db1.invoices.map (fun (r : InvoiceRow) =>
    if r.id == inst.id then newInv else r) }
  match vd.items_data with
  | none => db2
  | some its =>
    let base := (db2.items.map ItemRow.id).foldr Nat.max 0
    { db2 with items :=
        db2.items.filter (fun it => !(it.invoice_id == inst.id)) ++
        its.enum.map (fun p =>
          { id := base + 1 + p.1, invoice_id := inst.id,
            item_name := p.2.item_name, quantity := p.2.quantity,
            unit := p.2.unit, price_per_unit := p.2.price_per_unit,
            total := p.2.total }) }

/-! ## Concrete fixtures used by witnesses and counterexamples -/

/-- An unpaid purchase invoice over 500.00 dated 2024-03-10. -/
def invPurchase500 : InvRow :=
  { id := 1, invoice_type := "purchase", amount := 500, date := ⟨2024, 3, 10⟩,
    is_paid := false, person_id := 1, person_name := "Acme", person_role := "vendor" }

/-- A paid sale invoice over 300.00 dated 2024-03-15. -/
def invSale300 : InvRow :=
  { id := 2, invoice_type := "sale", amount := 300, date := ⟨2024, 3, 15⟩,
    is_paid := true, person_id := 2, person_name := "Bob", person_role := "customer" }

/-- A paid purchase invoice over 200.00. -/
def invPurchase200 : InvRow :=
  { id := 3, invoice_type := "purchase", amount := 200, date := ⟨2024, 3, 20⟩,
    is_paid := true, person_id := 1, person_name := "Acme", person_role := "vendor" }

/-- An unpaid purchase invoice dated in May (month 5). -/
def invMay : InvRow :=
  { id := 4, invoice_type := "purchase", amount := 100, date := ⟨2024, 5, 10⟩,
    is_paid := false, person_id := 1, person_name := "Acme", person_role := "vendor" }

/-- An unpaid invoice with the given id, type and day of January 2024. -/
def mkUnpaid (n : Nat) (ty : String) : InvRow :=
  { id := n, invoice_type := ty, amount := 100, date := ⟨2024, 1, n⟩,
    is_paid := false, person_id := 1, person_name := "Acme", person_role := "vendor" }

/-- Eight unpaid invoices — four purchases and four sales — of one
counterparty. -/
def c8Qs : List InvRow :=
  [mkUnpaid 1 "purchase", mkUnpaid 2 "purchase", mkUnpaid 3 "purchase",
   mkUnpaid 4 "purchase", mkUnpaid 5 "sale", mkUnpaid 6 "sale",
   mkUnpaid 7 "sale", mkUnpaid 8 "sale"]

/-- The pending row `dashboardPending` derives from `invMay`. -/
def rowMay : PendingRow :=
  { person_name := "Acme", invoice_count := 1, total_amount := 100,
    invoice_type := "purchase", role := "vendor" }

/-- A small system state with an empty cache. -/
def stEmptyCache : SysState := { cache := [], invs := [invMay], personIds := [1] }

/-- A system state whose cache holds one domain-namespaced entry. -/
def stCached : SysState :=
  { cache := [("rksuppliers:invoice:foo", Payload.namesP ["Acme"])],
    invs := [invMay], personIds := [1] }

/-- `stCached` after a successful create of `invPurchase500`. -/
def stCachedAfterCreate : SysState :=
  { cache := [], invs := [invMay, invPurchase500], personIds := [1] }

/-- A person row. -/
def wPerson : PersonT := { id := 1, name := "Old", role := "vendor" }

/-- An invoice row belonging to `wPerson`. -/
def wInvoice : InvoiceRow :=
  { id := 10, person_id := 1, invoice_type := "purchase", amount := 500,
    date := ⟨2024, 3, 10⟩, is_paid := false, travel_text := "",
    additional_charge_percent := 0, additional_charge_amount := 0,
    transport_charge := 0, subtotal := 500, grand_total := 500 }

/-- A second invoice of the same person. -/
def wInvoice2 : InvoiceRow := { wInvoice with id := 11, amount := 300 }

/-- An item of `wInvoice`. -/
def wItem : ItemRow :=
  { id := 1, invoice_id := 10, item_name := "steel", quantity := 2,
    unit := "kg", price_per_unit := 250, total := 500 }

/-- A record store with one person, two invoices and one item. -/
def wDB : DB :=
  { persons := [wPerson], invoices := [wInvoice, wInvoice2], items := [wItem] }

/-- A `person_data` dict carrying a new name only. -/
def wPD : PersonData := { name := some "New", role := none }

/-- A validated update payload: `person_data` present, `items_data`
absent. -/
def wVD : ValidatedData :=
  { person_data := some wPD, items_data := none, invoice_type := none,
    amount := some 750, date := none, is_paid := none, travel_text := none,
    additional_charge_percent := none, additional_charge_amount := none,
    transport_charge := none, subtotal := none, grand_total := none }

/-! ## Helper lemmas -/

/-- Lexicographic order on char lists is transitive. -/
theorem charListLt_trans : ∀ {x y z : List Char},
    charListLt x y = true → charListLt y z = true → charListLt x z = true := by
  intro x
  induction x with
  | nil =>
    intro y z hxy hyz
    cases y with
    | nil => simp [charListLt] at hxy
    | cons b bs =>
      cases z with
      | nil => simp [charListLt] at hyz
      | cons c cs => simp [charListLt]
  | cons a as ih =>
    intro y z hxy hyz
    cases y with
    | nil => simp [charListLt] at hxy
    | cons b bs =>
      cases z with
      | nil => simp [charListLt] at hyz
      | cons c cs =>
        simp [charListLt] at hxy hyz ⊢
        rcases hxy with h1 | ⟨hab, h2⟩
        · rcases hyz with h3 | ⟨hbc, h4⟩
          · exact Or.inl (Nat.lt_trans h1 h3)
          · exact Or.inl (hbc ▸ h1)
        · rcases hyz with h3 | ⟨hbc, h4⟩
          · exact Or.inl (hab ▸ h3)
          · exact Or.inr ⟨hab.trans hbc, ih h2 h4⟩

/-- Lexicographic order on char lists is asymmetric. -/
theorem charListLt_asymm : ∀ {x y : List Char},
    charListLt x y = true → charListLt y x = true → False := by
  intro x
  induction x with
  | nil => intro y hxy hyx; cases y <;> simp [charListLt] at hxy hyx
  | cons a as ih =>
    intro y hxy hyx
    cases y with
    | nil => simp [charListLt] at hxy
    | cons b bs =>
      simp [charListLt] at hxy hyx
      rcases hxy with h1 | ⟨hab, h2⟩
      · rcases hyx with h3 | ⟨hba, h4⟩
        · omega
        · rw [hba] at h1; omega
      · rcases hyx with h3 | ⟨hba, h4⟩
        · rw [hab] at h3; omega
        · exact ih h2 h4

/-- Characters with equal code points are equal. -/
theorem char_eq_of_toNat_eq {a b : Char} (h : a.toNat = b.toNat) : a = b := by
  rw [← Char.ofNat_toNat a, ← Char.ofNat_toNat b, h]

/-- Char lists that each fail to be below the other are equal. -/
theorem charListLt_connex : ∀ {x y : List Char},
    charListLt x y = false → charListLt y x = false → x = y := by
  intro x
  induction x with
  | nil =>
    intro y hxy _
    cases y with
    | nil => rfl
    | cons b bs => simp [charListLt] at hxy
  | cons a as ih =>
    intro y hxy hyx
    cases y with
    | nil => simp [charListLt] at hyx
    | cons b bs =>
      simp [charListLt] at hxy hyx
      have hab : a = b := char_eq_of_toNat_eq (by omega)
      rcases hxy with ⟨h1, h2⟩
      rcases hyx with ⟨h3, h4⟩
      rw [hab]
      rw [ih (h2 hab) (h4 hab.symm)]

/-- Strings with equal character data are equal. -/
theorem string_eq_of_data_eq {a b : String} (h : a.data = b.data) : a = b := by
  cases a; cases b; exact congrArg String.mk h

/-- `pyStrLt` is transitive. -/
theorem pyStrLt_trans {x y z : String} (h1 : pyStrLt x y = true)
    (h2 : pyStrLt y z = true) : pyStrLt x z = true := charListLt_trans h1 h2

/-- `pyStrLe` is total. -/
theorem pyStrLe_total (x y : String) : (pyStrLe x y || pyStrLe y x) = true := by
  unfold pyStrLe pyStrLt
  cases hxy : charListLt x.data y.data with
  | true => simp
  | false =>
    cases hyx : charListLt y.data x.data with
    | true => simp
    | false =>
      have h := charListLt_connex hxy hyx
      simp [string_eq_of_data_eq h]

/-- `pyStrLe` is transitive. -/
theorem pyStrLe_trans {x y z : String} (h1 : pyStrLe x y = true)
    (h2 : pyStrLe y z = true) : pyStrLe x z = true := by
  unfold pyStrLe at *
  simp at h1 h2 ⊢
  rcases h1 with h1 | h1
  · rcases h2 with h2 | h2
    · exact Or.inl (pyStrLt_trans h1 h2)
    · exact Or.inl (h2 ▸ h1)
  · rcases h2 with h2 | h2
    · exact Or.inl (h1 ▸ h2)
    · exact Or.inr (h1.trans h2)

/-- `pyStrLe` is antisymmetric. -/
theorem pyStrLe_antisymm {x y : String} (h1 : pyStrLe x y = true)
    (h2 : pyStrLe y x = true) : x = y := by
  unfold pyStrLe at *
  simp at h1 h2
  rcases h1 with h1 | h1
  · rcases h2 with h2 | h2
    · exact (charListLt_asymm h1 h2).elim
    · exact h2.symm
  · exact h1

/-- `pyStrLt` implies inequality. -/
theorem pyStrLt_ne {x y : String} (h : pyStrLt x y = true) : x ≠ y := by
  intro he
  subst he
  exact charListLt_asymm h h

/-- The pair comparison behind Python's `sorted` is transitive. -/
theorem pairLe_trans : ∀ (a b c : String × String),
    pairLe a b = true → pairLe b c = true → pairLe a c = true := by
  intro a b c hab hbc
  unfold pairLe at hab hbc ⊢
  simp only [beq_iff_eq] at hab hbc ⊢
  rcases eq_or_ne a.1 b.1 with h1 | h1 <;> rcases eq_or_ne b.1 c.1 with h2 | h2
  · rw [if_pos h1] at hab
    rw [if_pos h2] at hbc
    rw [if_pos (h1.trans h2)]
    exact pyStrLe_trans hab hbc
  · rw [if_pos h1] at hab
    rw [if_neg h2] at hbc
    rw [if_neg (fun hac => h2 (h1.symm.trans hac))]
    rw [h1]
    exact hbc
  · rw [if_neg h1] at hab
    rw [if_pos h2] at hbc
    rw [if_neg (fun hac => h1 (hac.trans h2.symm))]
    rw [← h2]
    exact hab
  · rw [if_neg h1] at hab
    rw [if_neg h2] at hbc
    have hlt := pyStrLt_trans hab hbc
    rw [if_neg (pyStrLt_ne hlt)]
    exact hlt

/-- The pair comparison is total. -/
theorem pairLe_total : ∀ (a b : String × String),
    (pairLe a b || pairLe b a) = true := by
  intro a b
  unfold pairLe
  simp only [beq_iff_eq]
  rcases eq_or_ne a.1 b.1 with h | h
  · rw [if_pos h, if_pos h.symm]
    exact pyStrLe_total a.2 b.2
  · rw [if_neg h, if_neg (Ne.symm h)]
    cases hl : charListLt a.1.data b.1.data with
    | true => simp [pyStrLt, hl]
    | false =>
      cases hr : charListLt b.1.data a.1.data with
      | true => simp [pyStrLt, hl, hr]
      | false => exact absurd (string_eq_of_data_eq (charListLt_connex hl hr)) h

/-- The pair comparison is antisymmetric. -/
theorem pairLe_antisymm : ∀ (a b : String × String),
    pairLe a b = true → pairLe b a = true → a = b := by
  intro a b hab hba
  unfold pairLe at hab hba
  simp only [beq_iff_eq] at hab hba
  rcases eq_or_ne a.1 b.1 with h | h
  · rw [if_pos h] at hab
    rw [if_pos h.symm] at hba
    exact Prod.ext h (pyStrLe_antisymm hab hba)
  · rw [if_neg h] at hab
    rw [if_neg (Ne.symm h)] at hba
    exact (charListLt_asymm hab hba).elim

/-- Python's `sorted` maps any two permutations of the same pair list to the
same sorted list. -/
theorem pySorted_perm_eq {m1 m2 : Params} (h : m1.Perm m2) :
    pySorted m1 = pySorted m2 := by
  haveI : IsAntisymm (String × String) (fun a b => pairLe a b = true) :=
    ⟨fun a b => pairLe_antisymm a b⟩
  haveI : IsTotal (String × String) (fun a b => pairLe a b = true) :=
    ⟨fun a b => by
      have h := pairLe_total a b
      rcases Bool.or_eq_true_iff.mp h with h | h
      · exact Or.inl h
      · exact Or.inr h⟩
  haveI : IsTrans (String × String) (fun a b => pairLe a b = true) :=
    ⟨fun a b c hab hbc => pairLe_trans a b c hab hbc⟩
  exact List.eq_of_perm_of_sorted
    ((List.perm_insertionSort (fun a b => pairLe a b = true) m1).trans
      (h.trans (List.perm_insertionSort (fun a b => pairLe a b = true) m2).symm))
    (List.sorted_insertionSort (fun a b => pairLe a b = true) m1)
    (List.sorted_insertionSort (fun a b => pairLe a b = true) m2)

/-- Every key `get_cache_key` produces lies in the wiped namespace. -/
theorem getCacheKey_inNamespace (opName : String) (args : List String) :
    inNamespace (getCacheKey opName args) = true := by
  unfold inNamespace getCacheKey
  apply List.isPrefixOf_iff_prefix.mpr
  have h : "rksuppliers:invoice:" ++ opName ++ ":" ++
      md5hex (opName ++ pyStrArgs args ++ "\x7b\x7d") =
      "rksuppliers:invoice:" ++ (opName ++ ":" ++
        md5hex (opName ++ pyStrArgs args ++ "\x7b\x7d")) := by
    simp [String.append_assoc]
  rw [h, String.data_append]
  exact List.prefix_append _ _

/-- After a successful namespace wipe, looking up any namespaced key
misses. -/
theorem cacheLookup_cleared (c : CacheState) (k : String)
    (hk : inNamespace k = true) :
    cacheLookup (c.filter (fun kv => !(inNamespace kv.1))) k = none := by
  unfold cacheLookup
  cases hf : (c.filter (fun kv => !(inNamespace kv.1))).find? (fun kv => kv.1 == k) with
  | none => rfl
  | some kv =>
    exfalso
    have hmem := List.mem_of_find?_eq_some hf
    have hbeq := List.find?_some hf
    have hkv : kv.1 = k := by simpa using hbeq
    have hfilter := (List.mem_filter.mp hmem).2
    rw [hkv] at hfilter
    simp [hk] at hfilter

/-! ## The claims -/

/-- C1 (code_bug): the claim says `total_purchase` / `total_sell` are the
sums of `amount` over the invoices of the filtered set whose
`invoice_type` is purchase resp. sale, and that the scoped views'
`total_pending` sums the unpaid invoices.  In the code,
`filter=F('invoice_type')=='purchase'` (and `filter=F('is_paid')==False`)
is the Python bool `False`, which Django drops, so every one of these
aggregates sums the whole filtered set: on a set holding one purchase of
500 (unpaid) and one sale of 300 (paid), the list view reports 800/800
where the claim demands 500/300, and on a purchase set of 500 (unpaid) +
200 (paid) the purchase view reports `total_pending` 700 where the claim
demands 500. -/
theorem c1_listTotalsSumEverything :
    (listViewData [] [invPurchase500, invSale300]).total_purchase = 800 ∧
    (listViewData [] [invPurchase500, invSale300]).total_sell = 800 ∧
    sumAmountWhere [invPurchase500, invSale300]
      (fun i => i.invoice_type == "purchase") = 500 ∧
    sumAmountWhere [invPurchase500, invSale300]
      (fun i => i.invoice_type == "sale") = 300 ∧
    (scopedViewData "purchase" [] [invPurchase500, invPurchase200]).toOption.map
      ScopedData.total_pending = some 700 ∧
    sumAmountWhere [invPurchase500, invPurchase200] (fun i => !i.is_paid) = 500 := by
  decide

/-- C2 (counterexample): the claim says a cache backend failure on get is
caught and treated as a miss; in the code `cache.get` is called outside any
try/except, so the failure propagates and the list request fails. -/
theorem c2_counterexample_getFailureFailsRequest :
    listView ⟨true, false, false⟩ stEmptyCache [] =
      Except.error ReqErr.cacheFailure := by
  rfl

/-- C2 (amended): only namespace invalidation absorbs cache-backend
failures (`clear_cache` has the sole try/except, so whether the delete
fails never changes whether a mutation succeeds); a backend failure on
`cache.get` fails every read request, and a failure on `cache.set` fails
any read that missed the cache. -/
theorem c2_readsPropagateCacheFailures (st : SysState) (ps : Params)
    (pk : String) (m : Mutation) :
    listView ⟨true, false, false⟩ st ps = Except.error ReqErr.cacheFailure ∧
    purchaseView ⟨true, false, false⟩ st ps = Except.error ReqErr.cacheFailure ∧
    sellView ⟨true, false, false⟩ st ps = Except.error ReqErr.cacheFailure ∧
    dashboardView ⟨true, false, false⟩ st ps = Except.error ReqErr.cacheFailure ∧
    retrieveView ⟨true, false, false⟩ st pk = Except.error ReqErr.cacheFailure ∧
    (cacheLookup st.cache (deriveKey "list" ps) = none →
      listView ⟨false, true, false⟩ st ps = Except.error ReqErr.cacheFailure) ∧
    ((applyMutation ⟨false, false, true⟩ m st).isSome ↔
      (applyMutation okCache m st).isSome) := by
  refine ⟨rfl, rfl, rfl, rfl, rfl, ?_, ?_⟩
  · intro h
    simp [listView, cacheGet, cacheSet, h, Except.bind, Bind.bind]
  · cases m <;> simp [applyMutation] <;> split <;> simp

/-- C2 witness: the amended statement at concrete inputs. -/
theorem c2_readsPropagateCacheFailures_witness :
    listView ⟨true, false, false⟩ stEmptyCache [] =
      Except.error ReqErr.cacheFailure ∧
    listView ⟨false, true, false⟩ stEmptyCache [] =
      Except.error ReqErr.cacheFailure :=
  ⟨(c2_readsPropagateCacheFailures stEmptyCache [] "1" (Mutation.destroy 4)).1,
   (c2_readsPropagateCacheFailures stEmptyCache [] "1"
      (Mutation.destroy 4)).2.2.2.2.2.1 rfl⟩

/-- C3 (counterexample): the claim says the effective take is at most 1000;
`paginate_queryset` never clamps, so requesting `take=5000` paginates with
5000 and a 1500-row set yields a 1500-row page. -/
theorem c3_counterexample_takeNotClamped :
    paginateParams none (some "5000") = (0, 5000) ∧
    ¬((5000 : Int) ≤ 1000) ∧
    (paginateQueryset (List.replicate 1500 invMay) none (some "5000")).length
      = 1500 := by
  refine ⟨by decide, by decide, ?_⟩
  have hp : paginateParams none (some "5000") = (0, 5000) := by decide
  unfold paginateQueryset
  rw [hp]
  unfold pySlice
  show (List.take (5000 : Int).toNat
    (List.drop (0 : Int).toNat (List.replicate 1500 invMay))).length = 1500
  have h0 : (0 : Int).toNat = 0 := rfl
  have h5 : (5000 : Int).toNat = 5000 := rfl
  rw [h0, h5, List.drop_zero, List.length_take, List.length_replicate]
  omega

/-- C3 (amended): no clamp is applied — whenever both parameters parse with
`skip ≥ 0` and `take ≥ 1` the parsed values are used as requested, even
above 1000; a parse failure of either, or `skip < 0`, or `take < 1`, resets
BOTH skip and take to the defaults `(0, 10)`, never only one of them. -/
theorem c3_bothResetNoClamp (skipP takeP : Option String) :
    ((match skipP with
      | none => some (0 : Int)
      | some s => parsePyInt s) = none → paginateParams skipP takeP = (0, 10)) ∧
    ((match takeP with
      | none => some (10 : Int)
      | some s => parsePyInt s) = none → paginateParams skipP takeP = (0, 10)) ∧
    (∀ sk tk : Int,
      (match skipP with
       | none => some (0 : Int)
       | some s => parsePyInt s) = some sk →
      (match takeP with
       | none => some (10 : Int)
       | some s => parsePyInt s) = some tk →
      ((sk < 0 ∨ tk < 1) → paginateParams skipP takeP = (0, 10)) ∧
      (0 ≤ sk → 1 ≤ tk → paginateParams skipP takeP = (sk, tk))) := by
  refine ⟨?_, ?_, ?_⟩
  · intro h
    rcases hm : (match takeP with
      | none => some (10 : Int)
      | some s => parsePyInt s) with _ | tk <;>
      simp [paginateParams, h, hm]
  · intro h
    rcases hm : (match skipP with
      | none => some (0 : Int)
      | some s => parsePyInt s) with _ | sk <;>
      simp [paginateParams, h, hm]
  · intro sk tk hsk htk
    unfold paginateParams
    rw [hsk, htk]
    constructor
    · intro hlt
      have hcond : (decide (sk < 0) || decide (tk < 1)) = true := by
        rcases hlt with h | h <;> simp [h]
      show (if (decide (sk < 0) || decide (tk < 1)) = true
            then ((0 : Int), (10 : Int)) else (sk, tk)) = (0, 10)
      rw [if_pos hcond]
    · intro h0 h1
      have hcond : (decide (sk < 0) || decide (tk < 1)) = false := by
        simp only [Bool.or_eq_false_iff, decide_eq_false_iff_not]
        constructor <;> omega
      show (if (decide (sk < 0) || decide (tk < 1)) = true
            then ((0 : Int), (10 : Int)) else (sk, tk)) = (sk, tk)
      rw [hcond]
      simp

/-- C3 witness: a parse failure on skip resets both; a large take is used
unclamped. -/
theorem c3_bothResetNoClamp_witness :
    paginateParams (some "abc") (some "7") = (0, 10) ∧
    paginateParams none (some "5000") = (0, 5000) :=
  ⟨(c3_bothResetNoClamp (some "abc") (some "7")).1 (by decide),
   ((c3_bothResetNoClamp none (some "5000")).2.2 0 5000 (by decide)
      (by decide)).2 (by decide) (by decide)⟩

/-- C4 (confirmed): the cache key is derived from
`str(sorted(filters.items()))`, so any two parameter mappings holding the
same key/value pairs — in whatever insertion order — yield the identical
derived key for the same operation. -/
theorem c4_keyOrderInsensitive (opName : String) (m1 m2 : Params)
    (h : m1.Perm m2) : deriveKey opName m1 = deriveKey opName m2 := by
  unfold deriveKey
  rw [pySorted_perm_eq h]

/-- C4 witness: two insertion orders of the same two filters derive the
same purchase-view key. -/
theorem c4_keyOrderInsensitive_witness :
    deriveKey "purchase" [("month", "March"), ("year", "2024")] =
    deriveKey "purchase" [("year", "2024"), ("month", "March")] :=
  c4_keyOrderInsensitive "purchase" _ _
    (List.Perm.swap ("year", "2024") ("month", "March") [])

set_option maxRecDepth 40000 in
/-- C5 (counterexample): the claim says a parameter that is not a
recognized filter does not change the derived cache key; but the key hashes
the whole of `request.query_params.dict()`, so adding `foo=bar` — ignored
by every filter step — changes the derived key. -/
theorem c5_counterexample_unrecognizedParamChangesKey :
    deriveKey "purchase" [("month", "March")] ≠
    deriveKey "purchase" [("foo", "bar"), ("month", "March")] := by
  decide

set_option maxRecDepth 40000 in
/-- C5 (amended): every query parameter, recognized or not, enters the key
derivation: the `foo` parameter leaves the purchase filter pipeline's
result untouched on every record set, yet at the exhibited inputs both a
changed recognized filter value (March to April) and an added unrecognized
parameter change the derived key. -/
theorem c5_allParamsEnterKey :
    (∀ invs : List InvRow,
      scopedQueryset "purchase" [("month", "March")] invs =
      scopedQueryset "purchase" [("foo", "bar"), ("month", "March")] invs) ∧
    deriveKey "purchase" [("month", "March")] ≠
      deriveKey "purchase" [("month", "April")] ∧
    deriveKey "purchase" [("month", "March")] ≠
      deriveKey "purchase" [("foo", "bar"), ("month", "March")] := by
  refine ⟨fun invs => rfl, by decide, by decide⟩

/-- C6 (counterexample): the claim says a numeric string denoting a valid
month filters the record set; in the code `MONTH_NAMES.index("3")` raises
`ValueError` (the table holds names only), the exception is swallowed, and
no filter is applied: an invoice dated in May survives a `month="3"`
filter, whereas the claimed filtering to month 3 would drop it. -/
theorem c6_counterexample_numericMonthIgnored :
    monthFilterStep (some "3") [invMay] = [invMay] ∧
    List.filter (fun v => v.date.month == 3) [invMay] = [] := by
  constructor <;> decide

/-- C6 (amended): the month parameter filters the record set exactly when
it is one of the twelve case-sensitive calendar month names; every other
value — numeric strings included — is silently ignored (no month filter is
applied), and the step never raises: it is a total function. -/
theorem c6_monthNamesOnly (m : String) (qs : List InvRow) :
    monthFilterStep none qs = qs ∧
    (∀ i, MONTH_NAMES.indexOf? m = some i →
      monthFilterStep (some m) qs = qs.filter (fun v => v.date.month == i + 1)) ∧
    (MONTH_NAMES.indexOf? m = none → monthFilterStep (some m) qs = qs) := by
  refine ⟨rfl, ?_, ?_⟩
  · intro i h
    have hne1 : m ≠ "" := by
      intro he
      rw [he] at h
      rw [(by decide : MONTH_NAMES.indexOf? "" = none)] at h
      cases h
    have hne2 : m ≠ "All" := by
      intro he
      rw [he] at h
      rw [(by decide : MONTH_NAMES.indexOf? "All" = none)] at h
      cases h
    have hcond : (m == "" || m == "All") = false := by
      simp only [Bool.or_eq_false_iff, beq_eq_false_iff_ne, ne_eq]
      exact ⟨hne1, hne2⟩
    unfold monthFilterStep
    show (if (m == "" || m == "All") = true then qs
      else match MONTH_NAMES.indexOf? m with
        | some idx => List.filter (fun v => v.date.month == idx + 1) qs
        | none => qs) = List.filter (fun v => v.date.month == i + 1) qs
    rw [hcond]
    simp only [Bool.false_eq_true, if_false]
    rw [h]
  · intro h
    unfold monthFilterStep
    show (if (m == "" || m == "All") = true then qs
      else match MONTH_NAMES.indexOf? m with
        | some idx => List.filter (fun v => v.date.month == idx + 1) qs
        | none => qs) = qs
    cases hcond : (m == "" || m == "All") <;> simp [h]

/-- C6 witness: the amended statement evaluated at a month name and at an
out-of-range numeric string. -/
theorem c6_monthNamesOnly_witness :
    monthFilterStep (some "March") [invMay] = [] ∧
    monthFilterStep (some "13") [invMay] = [invMay] :=
  ⟨((c6_monthNamesOnly "March" [invMay]).2.1 2 (by decide)).trans (by decide),
   (c6_monthNamesOnly "13" [invMay]).2.2 (by decide)⟩

/-- C7 (counterexample): the claim says a `date_from` value that fails to
parse is silently omitted and the request still succeeds; in the code the
raw value goes straight to the ORM date filter with no try/except, so the
purchase request fails with a `ValidationError`. -/
theorem c7_counterexample_malformedDateFailsRequest :
    purchaseView okCache stEmptyCache [("date_from", "not-a-date")] =
      Except.error ReqErr.validationError := by
  rfl

/-- C7 (amended): a `year` value that fails to parse is silently omitted
(the whole purchase pipeline even yields the same result as with no year
parameter at all, so the request succeeds), but a nonempty `date_from` or
`date_to` value that fails to parse raises the ORM's `ValidationError`,
which propagates out of the request. -/
theorem c7_yearSilentDatesRaise (y s : String) (qs : List InvRow) :
    (parsePyInt y = none → yearFilterStep (some y) qs = qs) ∧
    (∀ invs : List InvRow,
      scopedQueryset "purchase" [("year", "bad")] invs =
      scopedQueryset "purchase" [] invs) ∧
    (s ≠ "" → parseDjangoDate s = none →
      dateFromFilterStep (some s) qs = Except.error ReqErr.validationError) ∧
    (s ≠ "" → parseDjangoDate s = none →
      dateToFilterStep (some s) qs = Except.error ReqErr.validationError) := by
  refine ⟨?_, fun invs => rfl, ?_, ?_⟩
  · intro h
    unfold yearFilterStep
    show (if (y == "") = true then qs
      else match parsePyInt y with
        | some n => List.filter (fun v => ((v.date.year : Int) == n : Bool)) qs
        | none => qs) = qs
    cases hc : (y == "") <;> simp [h]
  · intro hne h
    unfold dateFromFilterStep
    show (if (s == "") = true then Except.ok qs
      else match parseDjangoDate s with
        | some d => Except.ok (List.filter (fun i => dateLe d i.date) qs)
        | none => Except.error ReqErr.validationError) =
      Except.error ReqErr.validationError
    rw [if_neg (by simp [hne])]
    rw [h]
  · intro hne h
    unfold dateToFilterStep
    show (if (s == "") = true then Except.ok qs
      else match parseDjangoDate s with
        | some d => Except.ok (List.filter (fun i => dateLe i.date d) qs)
        | none => Except.error ReqErr.validationError) =
      Except.error ReqErr.validationError
    rw [if_neg (by simp [hne])]
    rw [h]

/-- C7 witness: the amended statement at a malformed year and a malformed
date. -/
theorem c7_yearSilentDatesRaise_witness :
    yearFilterStep (some "abc") [invMay] = [invMay] ∧
    dateFromFilterStep (some "notadate") [invMay] =
      Except.error ReqErr.validationError :=
  ⟨(c7_yearSilentDatesRaise "abc" "notadate" [invMay]).1 (by decide),
   (c7_yearSilentDatesRaise "abc" "notadate" [invMay]).2.2.1 (by decide)
     (by decide)⟩

/-- C8 (counterexample): the claim says the pending breakdown has at most 5
rows, grouped by (counterparty, invoice_type); on eight unpaid invoices of
one counterparty (four per type) the code emits 8 rows, every row carries a
hardcoded count of 1, and rows repeat the same (counterparty, type) pair —
no grouping happens. -/
theorem c8_counterexample_pendingUngroupedTenRows :
    (dashboardPending c8Qs).length = 8 ∧
    ¬((dashboardPending c8Qs).length ≤ 5) ∧
    (dashboardPending c8Qs).all (fun r => r.invoice_count == 1) = true ∧
    ¬((dashboardPending c8Qs).map
        (fun r => (r.person_name, r.invoice_type))).Nodup := by
  refine ⟨by decide, by decide, by decide, by decide⟩

/-- C8 (amended): the pending list holds at most 10 rows — up to five
unpaid purchases followed by up to five unpaid sales — and each row is a
single unpaid invoice of the filtered set rendered with `invoice_count = 1`
and that invoice's own amount, name and role; no grouping or
amount-descending ordering is performed. -/
theorem c8_pendingTenIndividualRows (qs : List InvRow) :
    (dashboardPending qs).length ≤ 10 ∧
    (∀ r, r ∈ dashboardPending qs → r.invoice_count = 1 ∧
      ∃ i, i ∈ qs ∧ i.is_paid = false ∧ i.invoice_type = r.invoice_type ∧
        r.total_amount = i.amount ∧ r.person_name = i.person_name ∧
        r.role = i.person_role) := by
  constructor
  · unfold dashboardPending
    rw [List.length_append, List.length_map, List.length_map]
    have h1 := List.length_take_le 5 (orderByDateDesc (qs.filter
      (fun i => i.invoice_type == "purchase" && !i.is_paid)))
    have h2 := List.length_take_le 5 (orderByDateDesc (qs.filter
      (fun i => i.invoice_type == "sale" && !i.is_paid)))
    omega
  · intro r hr
    unfold dashboardPending at hr
    rcases List.mem_append.mp hr with hm | hm
    · obtain ⟨i, hi, rfl⟩ := List.mem_map.mp hm
      have hi2 := List.mem_of_mem_take hi
      unfold orderByDateDesc at hi2
      rw [(List.perm_insertionSort _ _).mem_iff] at hi2
      obtain ⟨hq, hp⟩ := List.mem_filter.mp hi2
      rw [Bool.and_eq_true] at hp
      exact ⟨rfl, i, hq, by simpa using hp.2, eq_of_beq hp.1, rfl, rfl, rfl⟩
    · obtain ⟨i, hi, rfl⟩ := List.mem_map.mp hm
      have hi2 := List.mem_of_mem_take hi
      unfold orderByDateDesc at hi2
      rw [(List.perm_insertionSort _ _).mem_iff] at hi2
      obtain ⟨hq, hp⟩ := List.mem_filter.mp hi2
      rw [Bool.and_eq_true] at hp
      exact ⟨rfl, i, hq, by simpa using hp.2, eq_of_beq hp.1, rfl, rfl, rfl⟩

/-- C8 witness: the amended statement at one unpaid purchase invoice. -/
theorem c8_pendingTenIndividualRows_witness :
    (dashboardPending [invMay]).length ≤ 10 ∧
    (rowMay.invoice_count = 1 ∧
      ∃ i, i ∈ [invMay] ∧ i.is_paid = false ∧
        i.invoice_type = rowMay.invoice_type ∧
        rowMay.total_amount = i.amount ∧ rowMay.person_name = i.person_name ∧
        rowMay.role = i.person_role) :=
  ⟨(c8_pendingTenIndividualRows [invMay]).1,
   (c8_pendingTenIndividualRows [invMay]).2 rowMay (by decide)⟩

/-- C9 (confirmed): every successful mutation — create, update, partial
update, destroy, bulk mark-all-paid — runs `clear_cache`, which (when the
namespace delete succeeds, i.e. a non-failing backend) removes every key of
the `rksuppliers:invoice:` namespace; every key `get_cache_key` can produce
lies in that namespace, so any previously cached key misses afterwards, and
a subsequent list read recomputes its payload from the post-mutation store
and re-populates the cache, instead of returning a pre-mutation value. -/
theorem c9_mutationsInvalidateWholeNamespace (m : Mutation) (st st' : SysState)
    (h : applyMutation okCache m st = some st') :
    (∀ opName args, cacheLookup st'.cache (getCacheKey opName args) = none) ∧
    (∀ ps, listView okCache st' ps =
      Except.ok (Payload.listP (listViewData ps st'.invs),
        { st' with cache := (deriveKey "list" ps,
            Payload.listP (listViewData ps st'.invs)) ::
          st'.cache.filter (fun kv => !(kv.1 == deriveKey "list" ps)) })) := by
  have hc : st'.cache = st.cache.filter (fun kv => !(inNamespace kv.1)) := by
    cases m with
    | create row =>
      simp [applyMutation, clearCache, okCache] at h
      subst h
      rfl
    | update pk row =>
      simp [applyMutation, clearCache, okCache] at h
      obtain ⟨hcnd, h2⟩ := h
      subst h2
      rfl
    | partialUpdate pk row =>
      simp [applyMutation, clearCache, okCache] at h
      obtain ⟨hcnd, h2⟩ := h
      subst h2
      rfl
    | destroy pk =>
      simp [applyMutation, clearCache, okCache] at h
      obtain ⟨hcnd, h2⟩ := h
      subst h2
      rfl
    | markAllPaid personId =>
      simp [applyMutation, clearCache, okCache] at h
      obtain ⟨hcnd, h2⟩ := h
      subst h2
      rfl
  constructor
  · intro opName args
    rw [hc]
    exact cacheLookup_cleared _ _ (getCacheKey_inNamespace opName args)
  · intro ps
    have hmiss : cacheLookup st'.cache (deriveKey "list" ps) = none := by
      rw [hc]
      exact cacheLookup_cleared _ _ (getCacheKey_inNamespace "list" _)
    simp [listView, cacheGet, cacheSet, okCache, hmiss, Except.bind, Bind.bind]
    rfl

/-- C9 witness: creating an invoice on a state with a cached namespaced
entry wipes it; the previously cached key then misses. -/
theorem c9_mutationsInvalidateWholeNamespace_witness :
    applyMutation okCache (Mutation.create invPurchase500) stCached =
      some stCachedAfterCreate ∧
    cacheLookup stCachedAfterCreate.cache (getCacheKey "list" ["x"]) = none :=
  ⟨by decide,
   (c9_mutationsInvalidateWholeNamespace (Mutation.create invPurchase500)
      stCached stCachedAfterCreate (by decide)).1 "list" ["x"]⟩

/-- C10 (confirmed): `InvoiceSerializer.update` with a truthy `person_data`
mutates the referenced `Person` row in place — the persons table keeps the
same ids in the same order (no new `Person`), every invoice keeps its
`(id, person_id)` link (never re-linked, given that the updated instance is
the stored row with its id), the row with the invoice's `person_id` is
overwritten with the supplied name/role (absent keys keep the old value)
while all other person rows survive unchanged — so every other invoice
referencing that person observes the new name and role through the shared
row; with `person_data` absent the persons table is untouched, and with
`items_data` absent the items table is untouched. -/
theorem c10_personMutatedInPlace (db : DB) (inst : InvoiceRow)
    (vd : ValidatedData)
    (hinst : ∀ r, r ∈ db.invoices → r.id = inst.id → r = inst) :
    ((serializerUpdate db inst vd).persons.map PersonT.id =
      db.persons.map PersonT.id) ∧
    ((serializerUpdate db inst vd).invoices.map (fun r => (r.id, r.person_id)) =
      db.invoices.map (fun r => (r.id, r.person_id))) ∧
    (∀ pd, vd.person_data = some pd → ∀ p, p ∈ db.persons →
      p.id = inst.person_id →
      { p with name := pd.name.getD p.name, role := pd.role.getD p.role } ∈
        (serializerUpdate db inst vd).persons) ∧
    (∀ pd, vd.person_data = some pd → ∀ p, p ∈ db.persons →
      p.id ≠ inst.person_id → p ∈ (serializerUpdate db inst vd).persons) ∧
    (vd.person_data = none →
      (serializerUpdate db inst vd).persons = db.persons) ∧
    (vd.items_data = none → (serializerUpdate db inst vd).items = db.items) := by
  refine ⟨?_, ?_, ?_, ?_, ?_, ?_⟩
  · rcases hpd : vd.person_data with _ | pd <;>
      rcases hit : vd.items_data with _ | its <;>
      simp only [serializerUpdate, hpd, hit] <;>
      try rfl
    all_goals
      rw [List.map_map]
      apply List.map_congr_left
      intro p _
      simp only [Function.comp]
      split <;> rfl
  · rcases hpd : vd.person_data with _ | pd <;>
      rcases hit : vd.items_data with _ | its <;>
      simp only [serializerUpdate, hpd, hit] <;>
      rw [List.map_map] <;>
      apply List.map_congr_left <;>
      intro r hr <;>
      simp only [Function.comp] <;>
      split
    case isTrue hbeq =>
      rw [hinst r hr (eq_of_beq hbeq)]
      rfl
    case isFalse => rfl
    case isTrue hbeq =>
      rw [hinst r hr (eq_of_beq hbeq)]
      rfl
    case isFalse => rfl
    case isTrue hbeq =>
      rw [hinst r hr (eq_of_beq hbeq)]
      rfl
    case isFalse => rfl
    case isTrue hbeq =>
      rw [hinst r hr (eq_of_beq hbeq)]
      rfl
    case isFalse => rfl
  · intro pd hpd p hp hid
    rcases hit : vd.items_data with _ | its <;>
      simp only [serializerUpdate, hpd, hit] <;>
      exact List.mem_map.mpr ⟨p, hp, by simp [hid]⟩
  · intro pd hpd p hp hne
    rcases hit : vd.items_data with _ | its <;>
      simp only [serializerUpdate, hpd, hit] <;>
      exact List.mem_map.mpr ⟨p, hp, by
        simp [beq_eq_false_iff_ne.mpr hne]⟩
  · intro hpd
    rcases hit : vd.items_data with _ | its <;>
      simp only [serializerUpdate, hpd, hit]
  · intro hit
    rcases hpd : vd.person_data with _ | pd <;>
      simp only [serializerUpdate, hpd, hit]

/-- C10 witness: updating the first of two invoices of one person with a
new person name (and no items_data) rewrites the shared person row and
leaves the items untouched. -/
theorem c10_personMutatedInPlace_witness :
    ({ id := 1, name := "New", role := "vendor" } : PersonT) ∈
      (serializerUpdate wDB wInvoice wVD).persons ∧
    (serializerUpdate wDB wInvoice wVD).items = wDB.items ∧
    (serializerUpdate wDB wInvoice wVD).invoices.map
      (fun r => (r.id, r.person_id)) =
      wDB.invoices.map (fun r => (r.id, r.person_id)) := by
  have h := c10_personMutatedInPlace wDB wInvoice wVD (by decide)
  exact ⟨h.2.2.1 wPD rfl wPerson (by decide) rfl, h.2.2.2.2.2 rfl, h.2.1⟩
